import Mathlib

/-!
Shallow embedding of the under-one-sky supervisor
(src/underonesky/supervisor.py and src/underonesky/earth_data/earth_data.py).

Temperatures are modelled as integers (the Python code only compares them
with `<` and `>`; no arithmetic on fractional parts is involved in any
claim).  Wall-clock instants inside one calendar day are modelled as
integer minutes since midnight of that day; the timestamp of the last
external override is modelled as integer seconds on a global clock.
Side effects on actuators and on the OSC link are recorded as an explicit
trace of `Act` values, in emission order.  The per-tick `asyncio.sleep(1)`
cadence sleep and the watchdog keep-alive are external to every claim and
are not recorded; the `time.sleep` calls inside the startup, shutdown and
test sequences are recorded, because the spec treats them as part of those
sequences.
-/

namespace UnderOneSky

/-- PowerState mirrors `State` from `underonesky.display_animations`
(imported by supervisor.py but not part of src/); only the two members
`STOPPED` and `RUNNING` are used by the supervisor. -/
inductive PowerState
  | STOPPED
  | RUNNING
deriving DecidableEq, Repr

/-- Act is one emitted side effect: a GPIO write on a phase pin, a write on
the main power relay, an OSC message to LEDPlay, or an in-sequence sleep. -/
inductive Act
  | pinOff (i : Nat)
  | pinOn (i : Nat)
  | powerOn
  | powerOff
  | oscRunIndex (v : Int)
  | oscMode (v : Int)
  | sleepSec (s : Nat)
deriving DecidableEq, Repr

/-- PinVec is the state of the eight phase actuator pins
(`phase_pin_numbers = [25, 24, 13, 12, 11, 10, 9, 8]`, so eight pins). -/
def PinVec := Fin 8 → Bool

instance : DecidableEq PinVec := fun p q =>
  Fintype.decidablePiFintype p q

/-- lights_out from earth_data.py, lines 62-77.  `sunrise_data` and
`sunset_data` are the raw table entries for the current date, `now` is the
current instant, all in minutes; `hard_off` is the optional `HH:MM` string
parsed to minutes since midnight (`if hard_off:` truthiness becomes the
`Option` match).  Note the code adds `on_delta` to `sunset` twice on the
paths that compare against sunset. -/
def lights_out (on_offset : Int) (sunrise_data sunset_data : Int)
    (now : Int) (hard_off : Option Int) : Bool :=
  let sunrise := sunrise_data + on_offset
  let sunset := sunset_data + on_offset
  match hard_off with
  | some off_time =>
      if now < sunset + on_offset ∨ now > off_time then true else false
  | none =>
      if now < sunrise then false
      else if now < sunset + on_offset then true
      else false

/-- handle_phase_select from supervisor.py, lines 168-174: de-energize every
phase pin (`list(map(lambda x: x.off(), phase_pins))`), then if
`2 <= index <= 8` energize the pin at list index `index - 2`. -/
def handle_phase_select (phase_pins : PinVec) (index : Int) :
    PinVec × List Act :=
  let offActs := (List.range 8).map Act.pinOff
  let cleared : PinVec := fun _ => false
  if h : 2 ≤ index ∧ index ≤ 8 then
    (Function.update cleared ⟨(index - 2).toNat, by omega⟩ true,
     offActs ++ [Act.pinOn (index - 2).toNat])
  else
    (cleared, offActs)

/-- handle_test from supervisor.py, lines 83-91: if `1 <= index <= 8`, set
`current_moon_phase := index`, run `handle_phase_select(index)` and sleep
ten seconds; otherwise do nothing.  Returns the new
`(current_moon_phase, phase_pins)` and the emitted trace. -/
def handle_test (current_moon_phase : Int) (phase_pins : PinVec)
    (index : Int) : Int × PinVec × List Act :=
  if 1 ≤ index ∧ index ≤ 8 then
    let r := handle_phase_select phase_pins index
    (index, r.1, r.2 ++ [Act.sleepSec 10])
  else
    (current_moon_phase, phase_pins, [])

/-- Temps is one value per monitored temperature channel, mirroring the
`{"cpu": _, "temp_1": _, "temp_2": _}` dictionaries `last_temp` and
`temp_shutdown` of supervisor.py (lines 56-65). -/
structure Temps where
  cpu : Int
  temp_1 : Int
  temp_2 : Int
deriving DecidableEq, Repr

/-- Supervision is the part of the `supervision` JSON configuration that the
main loop reads: thermal ceilings and hysteresis margins, the `leds_on` and
`moons_on` minute offsets, and the optional `leds_off` hard-off wall-clock
time in minutes. -/
structure Supervision where
  max_cpu_temp : Int
  max_led_temp : Int
  cpu_temp_hysteresis : Int
  led_temp_hysteresis : Int
  leds_on : Int
  moons_on : Int
  leds_off : Option Int
deriving DecidableEq, Repr

/-- SupState is the mutable global state of supervisor.py that `main_loop`
reads and writes: the power state machine, the timestamp (seconds) of the
last external override (`last_external`), the last readings (`last_temp`),
the three thermal latches (`temp_shutdown`, 0 meaning NORMAL and a nonzero
stored trip reading meaning TRIPPED, matching Python truthiness), the
currently selected moon phase, the main relay pin and the eight phase
pins. -/
structure SupState where
  current_state : PowerState
  last_external : Option Nat
  last_temp : Temps
  temp_shutdown : Temps
  current_moon_phase : Int
  power_pin : Bool
  phase_pins : PinVec
deriving DecidableEq

/-- TickEnv is the environment one iteration of `main_loop` observes: the
global clock in seconds (`datetime.datetime.now()`), the CPU temperature,
the two thermocouple readings (`none` when the sensor object is absent),
the `--disable_sun` flag, the current instant in minutes since midnight and
the raw sunrise/sunset table entries for the current date (arguments of
`lights_out`), and `int(moon_phase())`. -/
structure TickEnv where
  now : Nat
  pi_temp : Int
  temp_sensor_1 : Option Int
  temp_sensor_2 : Option Int
  disable_sun : Bool
  now_minutes : Int
  sunrise_data : Int
  sunset_data : Int
  moon_level : Int
deriving DecidableEq, Repr

/-- override_is_fresh models the freshness test of supervisor.py line 193:
the override recorded at `t0` is dropped when
`(datetime.datetime.now() - last_external).seconds > 10`, so it is fresh at
instant `t` exactly when `t - t0 <= 10` (for same-day instants, where the
`timedelta.seconds` field equals the elapsed whole seconds). -/
def override_is_fresh (t0 t : Nat) : Bool :=
  !(t - t0 > 10)

/-- handle_cpu_temp from supervisor.py, lines 94-101: store the externally
supplied CPU reading and stamp the override instant. -/
def handle_cpu_temp (st : SupState) (index : Int) (now : Nat) : SupState :=
  { st with last_temp := { st.last_temp with cpu := index },
            last_external := some now }

/-- handle_led_temp from supervisor.py, lines 104-111: store the externally
supplied LED reading (channel `temp_1`) and stamp the override instant. -/
def handle_led_temp (st : SupState) (index : Int) (now : Nat) : SupState :=
  { st with last_temp := { st.last_temp with temp_1 := index },
            last_external := some now }

/-- shutdown_led_sequence from supervisor.py, lines 285-289:
`handle_background_run_index(None, 1, False)` (which first energizes the
relay when it is observed de-energized, then sends the run-index message),
a five second settle sleep, background mode 0, relay off.  Returns the
final relay state and the trace. -/
def shutdown_led_sequence (power_pin : Bool) : Bool × List Act :=
  let runIndexActs :=
    (if ¬power_pin then [Act.powerOn] else []) ++ [Act.oscRunIndex 1]
  (false,
   runIndexActs ++ [Act.sleepSec 5, Act.oscMode 0, Act.powerOff])

/-- startup_led_sequence from supervisor.py, lines 277-282:
`handle_background_run_index(None, 1, False)`, background mode 1, relay on,
a one second settle sleep, background mode 2.  Returns the final relay
state and the trace. -/
def startup_led_sequence (power_pin : Bool) : Bool × List Act :=
  let runIndexActs :=
    (if ¬power_pin then [Act.powerOn] else []) ++ [Act.oscRunIndex 1]
  (true,
   runIndexActs ++ [Act.oscMode 1, Act.powerOn, Act.sleepSec 1,
                    Act.oscMode 2])

/-- refresh_temps models supervisor.py lines 192-198: when an external
override is present, drop it once it is more than ten seconds old (and do
not poll this tick); otherwise poll all three channels, an absent sensor
object reading as 0 (`temp_sensor_1.get_currentValue() if temp_sensor_1
else 0`). -/
def refresh_temps (env : TickEnv) (st : SupState) : SupState :=
  match st.last_external with
  | some t0 =>
      if ¬ override_is_fresh t0 env.now then
        { st with last_external := none }
      else st
  | none =>
      { st with last_temp :=
          { cpu := env.pi_temp
            temp_1 := match env.temp_sensor_1 with
                      | some v => v
                      | none => 0
            temp_2 := match env.temp_sensor_2 with
                      | some v => v
                      | none => 0 } }

/-- release_latches models supervisor.py lines 200-211: for each tripped
channel, clear the latch when the last reading has fallen below
`ceiling - hysteresis`. -/
def release_latches (cfg : Supervision) (st : SupState) : SupState :=
  let ts := st.temp_shutdown
  let ts :=
    if ts.cpu ≠ 0 ∧ cfg.max_cpu_temp - cfg.cpu_temp_hysteresis > st.last_temp.cpu
    then { ts with cpu := 0 } else ts
  let ts :=
    if ts.temp_1 ≠ 0 ∧ cfg.max_led_temp - cfg.led_temp_hysteresis > st.last_temp.temp_1
    then { ts with temp_1 := 0 } else ts
  let ts :=
    if ts.temp_2 ≠ 0 ∧ cfg.max_led_temp - cfg.led_temp_hysteresis > st.last_temp.temp_2
    then { ts with temp_2 := 0 } else ts
  { st with temp_shutdown := ts }

/-- main_loop_tick is one iteration of the `while True` body of `main_loop`
(supervisor.py lines 188-274): refresh readings honoring the override,
then either run only the latch release checks (when any latch is tripped),
or trip the first over-ceiling channel (shutting down unless already
stopped and forcing phase 0), or evaluate the schedule and drive the power
state machine and the moon phase.  Returns the new state and the emitted
trace. -/
def main_loop_tick (cfg : Supervision) (env : TickEnv) (st : SupState) :
    SupState × List Act :=
  let st := refresh_temps env st
  if st.temp_shutdown.cpu ≠ 0 ∨ st.temp_shutdown.temp_1 ≠ 0 ∨
     st.temp_shutdown.temp_2 ≠ 0 then
    (release_latches cfg st, [])
  else if st.last_temp.cpu > cfg.max_cpu_temp then
    let r :=
      if st.current_state ≠ PowerState.STOPPED then
        let s := shutdown_led_sequence st.power_pin
        (PowerState.STOPPED, s.1, s.2)
      else (st.current_state, st.power_pin, [])
    let p := handle_phase_select st.phase_pins 0
    ({ st with current_state := r.1, power_pin := r.2.1,
               temp_shutdown := { st.temp_shutdown with cpu := st.last_temp.cpu },
               phase_pins := p.1, current_moon_phase := 0 },
     r.2.2 ++ p.2)
  else if st.last_temp.temp_1 > cfg.max_led_temp then
    let r :=
      if st.current_state ≠ PowerState.STOPPED then
        let s := shutdown_led_sequence st.power_pin
        (PowerState.STOPPED, s.1, s.2)
      else (st.current_state, st.power_pin, [])
    let p := handle_phase_select st.phase_pins 0
    ({ st with current_state := r.1, power_pin := r.2.1,
               temp_shutdown := { st.temp_shutdown with temp_1 := st.last_temp.temp_1 },
               phase_pins := p.1, current_moon_phase := 0 },
     r.2.2 ++ p.2)
  else if st.last_temp.temp_2 > cfg.max_led_temp then
    let r :=
      if st.current_state ≠ PowerState.STOPPED then
        let s := shutdown_led_sequence st.power_pin
        (PowerState.STOPPED, s.1, s.2)
      else (st.current_state, st.power_pin, [])
    let p := handle_phase_select st.phase_pins 0
    ({ st with current_state := r.1, power_pin := r.2.1,
               temp_shutdown := { st.temp_shutdown with temp_2 := st.last_temp.temp_2 },
               phase_pins := p.1, current_moon_phase := 0 },
     r.2.2 ++ p.2)
  else
    let main_led_off :=
      if env.disable_sun then false
      else lights_out cfg.leds_on env.sunrise_data env.sunset_data
             env.now_minutes cfg.leds_off
    let moon_off :=
      if env.disable_sun then false
      else lights_out cfg.moons_on env.sunrise_data env.sunset_data
             env.now_minutes none
    let power :=
      if main_led_off then
        if st.current_state ≠ PowerState.STOPPED then
          let s := shutdown_led_sequence st.power_pin
          (PowerState.STOPPED, s.1, s.2)
        else if st.power_pin then
          let s := shutdown_led_sequence st.power_pin
          (st.current_state, s.1, s.2)
        else (st.current_state, st.power_pin, ([] : List Act))
      else
        if st.current_state = PowerState.STOPPED then
          let s := startup_led_sequence st.power_pin
          (PowerState.RUNNING, s.1, s.2)
        else (st.current_state, st.power_pin, [])
    let moon :=
      if moon_off then
        if st.current_moon_phase ≠ 0 then
          let p := handle_phase_select st.phase_pins 0
          ((0 : Int), p.1, p.2)
        else (st.current_moon_phase, st.phase_pins, ([] : List Act))
      else
        if st.current_moon_phase ≠ env.moon_level then
          let p := handle_phase_select st.phase_pins env.moon_level
          (env.moon_level, p.1, p.2)
        else (st.current_moon_phase, st.phase_pins, [])
    ({ st with current_state := power.1, power_pin := power.2.1,
               current_moon_phase := moon.1, phase_pins := moon.2.1 },
     power.2.2 ++ moon.2.2)

/-- shutdown_runs counts the shutdown sequences inside a trace: background
mode 0 is sent exactly once per `shutdown_led_sequence` and by nothing
else (startup uses modes 1 and 2). -/
def shutdown_runs (acts : List Act) : Nat :=
  acts.count (Act.oscMode 0)

/-- startup_runs counts the startup sequences inside a trace: background
mode 2 is sent exactly once per `startup_led_sequence` and by nothing
else. -/
def startup_runs (acts : List Act) : Nat :=
  acts.count (Act.oscMode 2)

/-! Concrete configurations and states used to instantiate the theorems. -/

/-- cfgA is a representative supervision configuration: both ceilings 60,
both hysteresis margins 10, zero minute offsets, no hard-off time. -/
def cfgA : Supervision :=
  { max_cpu_temp := 60, max_led_temp := 60, cpu_temp_hysteresis := 10,
    led_temp_hysteresis := 10, leds_on := 0, moons_on := 0, leds_off := none }

/-- envC9 is a quiet night-time environment: sensors present and cool,
astronomical night (20:00 with sunrise 06:00 and sunset 18:00), moon
phase 5. -/
def envC9 : TickEnv :=
  { now := 0, pi_temp := 20, temp_sensor_1 := some 20,
    temp_sensor_2 := some 20, disable_sun := false, now_minutes := 1200,
    sunrise_data := 360, sunset_data := 1080, moon_level := 5 }

/-- stC9 is a steady running state already at moon phase 5. -/
def stC9 : SupState :=
  { current_state := PowerState.RUNNING, last_external := none,
    last_temp := ⟨20, 20, 20⟩, temp_shutdown := ⟨0, 0, 0⟩,
    current_moon_phase := 5, power_pin := true,
    phase_pins := Function.update (fun _ => false) 3 true }

/-- stC1 has the cpu latch TRIPPED (stored reading 70) while channel
temp_1 is NORMAL with an observed reading of 100, over its ceiling. -/
def stC1 : SupState :=
  { current_state := PowerState.STOPPED, last_external := some 0,
    last_temp := ⟨70, 100, 0⟩, temp_shutdown := ⟨70, 0, 0⟩,
    current_moon_phase := 0, power_pin := false,
    phase_pins := fun _ => false }

/-- envC1 keeps the override fresh so the stored readings are the observed
readings of the tick. -/
def envC1 : TickEnv :=
  { now := 5, pi_temp := 0, temp_sensor_1 := some 0, temp_sensor_2 := some 0,
    disable_sun := false, now_minutes := 600, sunrise_data := 360,
    sunset_data := 1080, moon_level := 5 }

/-- stC1b has the cpu latch TRIPPED with a cooled-down observed reading
of 20, below ceiling minus margin. -/
def stC1b : SupState :=
  { current_state := PowerState.STOPPED, last_external := some 0,
    last_temp := ⟨20, 0, 0⟩, temp_shutdown := ⟨70, 0, 0⟩,
    current_moon_phase := 0, power_pin := false,
    phase_pins := fun _ => false }

/-- stC1c has every latch NORMAL and a hot cpu reading of 70, over the
ceiling. -/
def stC1c : SupState :=
  { current_state := PowerState.RUNNING, last_external := some 0,
    last_temp := ⟨70, 20, 20⟩, temp_shutdown := ⟨0, 0, 0⟩,
    current_moon_phase := 0, power_pin := true,
    phase_pins := fun _ => false }

/-- stC2 is a RUNNING state at moon phase 5 with all latches NORMAL and a
hot cpu reading of 70. -/
def stC2 : SupState :=
  { current_state := PowerState.RUNNING, last_external := some 0,
    last_temp := ⟨70, 20, 20⟩, temp_shutdown := ⟨0, 0, 0⟩,
    current_moon_phase := 5, power_pin := true,
    phase_pins := Function.update (fun _ => false) 3 true }

/-- stC5 has the temp_1 latch TRIPPED (stored reading 65) with last-known
reading 65 and no override in effect. -/
def stC5 : SupState :=
  { current_state := PowerState.STOPPED, last_external := none,
    last_temp := ⟨20, 65, 20⟩, temp_shutdown := ⟨0, 65, 0⟩,
    current_moon_phase := 0, power_pin := false,
    phase_pins := fun _ => false }

/-- envC5 has the temp_1 sensor unavailable and the other sensors cool. -/
def envC5 : TickEnv :=
  { now := 5, pi_temp := 20, temp_sensor_1 := none, temp_sensor_2 := some 20,
    disable_sun := false, now_minutes := 600, sunrise_data := 360,
    sunset_data := 1080, moon_level := 5 }

/-- stC5b has the temp_2 latch TRIPPED (stored reading 65) with last-known
reading 65 and no override in effect. -/
def stC5b : SupState :=
  { current_state := PowerState.STOPPED, last_external := none,
    last_temp := ⟨20, 20, 65⟩, temp_shutdown := ⟨0, 0, 65⟩,
    current_moon_phase := 0, power_pin := false,
    phase_pins := fun _ => false }

/-- envC5b has the temp_2 sensor unavailable and the other sensors cool. -/
def envC5b : TickEnv :=
  { now := 5, pi_temp := 20, temp_sensor_1 := some 20, temp_sensor_2 := none,
    disable_sun := false, now_minutes := 600, sunrise_data := 360,
    sunset_data := 1080, moon_level := 5 }

/-- stC6 is a running state with a cpu override recorded at second 100 and
stale stored readings of 7 on every channel. -/
def stC6 : SupState :=
  { current_state := PowerState.RUNNING, last_external := some 100,
    last_temp := ⟨7, 7, 7⟩, temp_shutdown := ⟨0, 0, 0⟩,
    current_moon_phase := 5, power_pin := true, phase_pins := fun _ => false }

/-- envC6 is five seconds after the override, with every real sensor
available and reading 42. -/
def envC6 : TickEnv :=
  { now := 105, pi_temp := 42, temp_sensor_1 := some 42,
    temp_sensor_2 := some 42, disable_sun := true, now_minutes := 600,
    sunrise_data := 360, sunset_data := 1080, moon_level := 5 }

/-- cfgC8 is cfgA with a 22:00 hard-off time for the main LEDs. -/
def cfgC8 : Supervision :=
  { max_cpu_temp := 60, max_led_temp := 60, cpu_temp_hysteresis := 10,
    led_temp_hysteresis := 10, leds_on := 0, moons_on := 0,
    leds_off := some 1320 }

/-- stC8 is already STOPPED but with the relay observed energized, all
latches NORMAL and cool readings. -/
def stC8 : SupState :=
  { current_state := PowerState.STOPPED, last_external := none,
    last_temp := ⟨20, 20, 20⟩, temp_shutdown := ⟨0, 0, 0⟩,
    current_moon_phase := 0, power_pin := true, phase_pins := fun _ => false }

/-- envC8 is a daytime instant (10:00) on which the schedule says the main
LEDs are off. -/
def envC8 : TickEnv :=
  { now := 5, pi_temp := 20, temp_sensor_1 := some 20,
    temp_sensor_2 := some 20, disable_sun := false, now_minutes := 600,
    sunrise_data := 360, sunset_data := 1080, moon_level := 5 }

/-! Helper lemmas shared by the claim proofs. -/

theorem refresh_temps_temp_shutdown (env : TickEnv) (st : SupState) :
    (refresh_temps env st).temp_shutdown = st.temp_shutdown := by
  obtain ⟨cs, le, lt, ts, cmp, pp, pins⟩ := st
  rcases le with _ | t0 <;> simp [refresh_temps]
  split <;> rfl

theorem refresh_temps_frame (env : TickEnv) (st : SupState) :
    (refresh_temps env st).current_state = st.current_state ∧
    (refresh_temps env st).power_pin = st.power_pin ∧
    (refresh_temps env st).phase_pins = st.phase_pins ∧
    (refresh_temps env st).current_moon_phase = st.current_moon_phase := by
  obtain ⟨cs, le, lt, ts, cmp, pp, pins⟩ := st
  rcases le with _ | t0 <;> simp [refresh_temps]
  split <;> exact ⟨rfl, rfl, rfl, rfl⟩

/-! Claim C3: the hard-off branch of lights_out. -/

/-- C3 counterexample: with sunrise 06:00 (360), sunset 18:00 (1080),
offset 0 and hard-off 22:00 (1320), at 19:00 (1140) the claim says the
result is true (`now` is at/after sunset + on_offset), but `lights_out`
returns false: the code treats the interval after sunset and before the
hard-off time as lit, and its sole off conditions are `now` strictly
before sunset plus a double offset or time-of-day strictly after the
hard-off time. -/
theorem lights_out_hard_off_counterexample :
    ((1080 : Int) + 0 ≤ 1140 ∨ (1320 : Int) ≤ 1140) ∧
    lights_out 0 360 1080 1140 (some 1320) = false := by
  decide

/-- C3 (amended): with a hard-off time set, `lights_out` returns true
(lights off) exactly when `now` is strictly before
`sunset + 2 * on_offset` (the offset is applied to sunset twice) or the
time-of-day is strictly after the hard-off time; in particular, with
hard-off 22:00, sunset 18:00 and offset 0, the result at 21:59 is false
(lit), at 22:00 it is still false (the comparison is strict), at 22:01 it
is true, and early-morning instants past midnight (before sunset) stay
off, so the lit window never re-opens before the next sunset. -/
theorem lights_out_hard_off_characterization (on_offset sunrise_data sunset_data now off_time : Int) :
    (lights_out on_offset sunrise_data sunset_data now (some off_time) = true ↔
      (now < sunset_data + on_offset + on_offset ∨ off_time < now)) ∧
    lights_out 0 360 1080 1319 (some 1320) = false ∧
    lights_out 0 360 1080 1320 (some 1320) = false ∧
    lights_out 0 360 1080 1321 (some 1320) = true ∧
    lights_out 0 360 1080 90 (some 1320) = true := by
  refine ⟨?_, by decide, by decide, by decide, by decide⟩
  simp only [lights_out]
  split <;> rename_i h
  · simpa using h
  · simpa using h

/-! Claim C4: the no-hard-off branch of lights_out. -/

/-- C4 counterexample: with sunrise 06:00 (360), sunset 18:00 (1080) and
offset 0, at 06:00 the claim says the result is false (inside the lit
window `[sunrise', sunset')`), but `lights_out` returns true: without a
hard-off the code reports lights off exactly during the daytime interval
from adjusted sunrise to sunset plus a double offset, the opposite
polarity of the claimed night window. -/
theorem lights_out_no_hard_off_counterexample :
    ¬ ((360 : Int) < 360 + 0 ∨ (1080 : Int) + 0 ≤ 360) ∧
    lights_out 0 360 1080 360 none = true := by
  decide

/-- C4 (amended): with no hard-off set, `lights_out` returns true (lights
off) exactly when `sunrise + on_offset ≤ now` and
`now < sunset + 2 * on_offset` (daytime window, left-closed and
right-open; the offset is applied to sunset twice); in particular with
offset 0, sunrise 06:00 and sunset 18:00: the result at 05:59 is false,
at 06:00 true, at 17:59 true and at 18:00 false. -/
theorem lights_out_no_hard_off_characterization (on_offset sunrise_data sunset_data now : Int) :
    (lights_out on_offset sunrise_data sunset_data now none = true ↔
      (sunrise_data + on_offset ≤ now ∧ now < sunset_data + on_offset + on_offset)) ∧
    lights_out 0 360 1080 359 none = false ∧
    lights_out 0 360 1080 360 none = true ∧
    lights_out 0 360 1080 1079 none = true ∧
    lights_out 0 360 1080 1080 none = false := by
  refine ⟨?_, by decide, by decide, by decide, by decide⟩
  simp only [lights_out]
  split <;> rename_i h₁
  · simp
    omega
  · split <;> rename_i h₂
    · simp
      omega
    · simp
      omega

/-! Claim C7: phase selector postcondition. -/

/-- C7: for every prior pin state, `handle_phase_select` with a position
outside `[2, 8]` leaves zero energized phase actuators; with a position
inside `[2, 8]` exactly the actuator at list index `position - 2` is
energized and all others are de-energized; every call first emits a
de-energize write for each of the eight pins (break-before-make), and at
most one actuator is energized afterwards. -/
theorem phase_select_postcondition (pins : PinVec) (index : Int) :
    (¬ (2 ≤ index ∧ index ≤ 8) → ∀ j, (handle_phase_select pins index).1 j = false) ∧
    ((2 ≤ index ∧ index ≤ 8) →
      ∀ j : Fin 8, ((handle_phase_select pins index).1 j = true ↔
        (j : Nat) = (index - 2).toNat)) ∧
    ((handle_phase_select pins index).2.take 8 = (List.range 8).map Act.pinOff) ∧
    (∀ i j : Fin 8, (handle_phase_select pins index).1 i = true →
      (handle_phase_select pins index).1 j = true → i = j) := by
  by_cases h : 2 ≤ index ∧ index ≤ 8
  · have key : ∀ j : Fin 8, ((handle_phase_select pins index).1 j = true ↔
        (j : Nat) = (index - 2).toNat) := by
      intro j
      simp only [handle_phase_select, dif_pos h]
      rw [Function.update_apply]
      split_ifs with hij
      · simp [hij]
      · simp only [Bool.false_eq_true, false_iff]
        intro hval
        exact hij (Fin.ext hval)
    refine ⟨fun hc => absurd h hc, fun _ => key, ?_, ?_⟩
    · simp only [handle_phase_select, dif_pos h]
      calc ((List.range 8).map Act.pinOff ++ [Act.pinOn (index - 2).toNat]).take 8
          = ((List.range 8).map Act.pinOff ++
              [Act.pinOn (index - 2).toNat]).take ((List.range 8).map Act.pinOff).length := by
            norm_num
        _ = (List.range 8).map Act.pinOff := List.take_left _ _
    · intro i j hi hj
      exact Fin.ext (((key i).1 hi).trans ((key j).1 hj).symm)
  · have hall : ∀ j, (handle_phase_select pins index).1 j = false := by
      intro j
      simp [handle_phase_select, dif_neg h]
    refine ⟨fun _ => hall, fun hc => absurd hc h, ?_, ?_⟩
    · simp only [handle_phase_select, dif_neg h]
      exact List.take_of_length_le (by norm_num)
    · intro i j hi hj
      rw [hall i] at hi
      exact absurd hi (by simp)

/-- C7 witness: at position 9 every pin ends false, and at position 5 pin
3 is energized, instantiating `phase_select_postcondition`. -/
theorem phase_select_postcondition_witness :
    ((handle_phase_select (fun _ => true) 9).1 0 = false) ∧
    ((handle_phase_select (fun _ => true) 5).1 3 = true ↔
      ((3 : Fin 8) : Nat) = ((5 : Int) - 2).toNat) := by
  exact ⟨(phase_select_postcondition (fun _ => true) 9).1 (by decide) 0,
         (phase_select_postcondition (fun _ => true) 5).2.1 (by decide) 3⟩

/-! Claim C9: idempotence of phase selection. -/

/-- C9 counterexample: calling `handle_phase_select` a second time with the
same position 5 is not write-free: the second call emits nine actuator
writes (eight de-energize writes and one energize write), so the
actuator-write count is not unchanged across repeated calls. -/
theorem phase_select_rewrite_counterexample :
    (handle_phase_select (handle_phase_select (fun _ => false) 5).1 5).2 ≠ [] ∧
    ((handle_phase_select (handle_phase_select (fun _ => false) 5).1 5).2).length = 9 := by
  decide

/-- C9 (amended): repeated `handle_phase_select` with the same position is
idempotent on the pin state (the resulting pin state never depends on the
prior pin state), and the supervisor loop itself avoids actuator churn:
a tick on which no latch is tripped, no reading is over its ceiling, the
schedule keeps both channels lit and the stored moon phase already equals
the current one emits no side effects at all; but each direct call does
emit de-energize writes for every pin, so write counts do grow on
repeated direct calls. -/
theorem phase_select_idempotent_amended (pins : PinVec) (k : Int) :
    ((handle_phase_select (handle_phase_select pins k).1 k).1 =
      (handle_phase_select pins k).1) ∧
    (∀ cfg env st,
      st.temp_shutdown = ⟨0, 0, 0⟩ →
      (refresh_temps env st).last_temp.cpu ≤ cfg.max_cpu_temp →
      (refresh_temps env st).last_temp.temp_1 ≤ cfg.max_led_temp →
      (refresh_temps env st).last_temp.temp_2 ≤ cfg.max_led_temp →
      env.disable_sun = false →
      lights_out cfg.leds_on env.sunrise_data env.sunset_data
        env.now_minutes cfg.leds_off = false →
      st.current_state = PowerState.RUNNING →
      lights_out cfg.moons_on env.sunrise_data env.sunset_data
        env.now_minutes none = false →
      st.current_moon_phase = env.moon_level →
      (main_loop_tick cfg env st).2 = [] ∧
      (main_loop_tick cfg env st).1.phase_pins = st.phase_pins) := by
  constructor
  · by_cases h : 2 ≤ k ∧ k ≤ 8 <;>
      simp [handle_phase_select, h]
  · intro cfg env st hts hcpu h1 h2 hds hmain hrun hmoon hphase
    have hF := refresh_temps_frame env st
    have hT := refresh_temps_temp_shutdown env st
    have c1 : ¬ ((refresh_temps env st).last_temp.cpu > cfg.max_cpu_temp) := by omega
    have c2 : ¬ ((refresh_temps env st).last_temp.temp_1 > cfg.max_led_temp) := by omega
    have c3 : ¬ ((refresh_temps env st).last_temp.temp_2 > cfg.max_led_temp) := by omega
    simp only [main_loop_tick, hT, hts, hds, hmain, hmoon, c1, c2, c3,
               hF.1, hF.2.1, hF.2.2.1, hF.2.2.2, hphase, hrun]
    simp

/-- C9 witness: on the quiet steady tick the loop emits no side effects
and the pins are untouched, instantiating
`phase_select_idempotent_amended`. -/
theorem phase_select_idempotent_amended_witness :
    (main_loop_tick cfgA envC9 stC9).2 = [] ∧
    (main_loop_tick cfgA envC9 stC9).1.phase_pins = stC9.phase_pins := by
  exact (phase_select_idempotent_amended (fun _ => false) 0).2 cfgA envC9 stC9
    (by decide) (by decide) (by decide) (by decide) (by decide) (by decide)
    (by decide) (by decide) (by decide)

/-! Claim C10: the phase-to-pin index offset. -/

/-- C10: `handle_phase_select` energizes the configured pin at list index
`index - 2` whenever `2 ≤ index ≤ 8`; selecting phase 1 (New Moon), which
`handle_test` accepts and records as the current phase, leaves every phase
actuator de-energized; and the eighth (last) configured phase pin, at list
index 7, is never energized by any selection. -/
theorem phase_mapping_offset (pins : PinVec) (cur index : Int) :
    (∀ j, (handle_phase_select pins 1).1 j = false) ∧
    ((handle_test cur pins 1).1 = 1) ∧
    (∀ j, (handle_test cur pins 1).2.1 j = false) ∧
    ((2 ≤ index ∧ index ≤ 8) → ∀ hlt : (index - 2).toNat < 8,
      (handle_phase_select pins index).1 ⟨(index - 2).toNat, hlt⟩ = true) ∧
    (∀ j : Fin 8, (j : Nat) = 7 → (handle_phase_select pins index).1 j = false) := by
  have hone : ¬ ((2 : Int) ≤ 1 ∧ (1 : Int) ≤ 8) := by decide
  have hsel1 : ∀ j, (handle_phase_select pins 1).1 j = false := by
    intro j
    simp [handle_phase_select, dif_neg hone]
  refine ⟨hsel1, ?_, ?_, ?_, ?_⟩
  · simp [handle_test]
  · intro j
    simpa [handle_test] using hsel1 j
  · intro h hlt
    simp only [handle_phase_select, dif_pos h]
    rw [Function.update_apply, if_pos (Fin.ext rfl)]
  · intro j hj
    by_cases h : 2 ≤ index ∧ index ≤ 8
    · simp only [handle_phase_select, dif_pos h]
      rw [Function.update_apply, if_neg]
      intro heq
      have hv : (j : Nat) = (index - 2).toNat := by
        simpa using congrArg Fin.val heq
      omega
    · simp [handle_phase_select, dif_neg h]

/-- C10 witness: selecting phase 5 energizes pin 3 and leaves pin 7
de-energized, and `handle_test` at phase 1 records the phase and clears
every pin, instantiating `phase_mapping_offset`. -/
theorem phase_mapping_offset_witness :
    ((handle_phase_select (fun _ => true) 5).1 ⟨((5 : Int) - 2).toNat, by decide⟩ = true) ∧
    ((handle_phase_select (fun _ => true) 5).1 7 = false) ∧
    ((handle_test 0 (fun _ => true) 1).1 = 1) := by
  exact ⟨(phase_mapping_offset (fun _ => true) 0 5).2.2.2.1 (by decide) (by decide),
         (phase_mapping_offset (fun _ => true) 0 5).2.2.2.2 7 (by decide),
         (phase_mapping_offset (fun _ => true) 0 5).2.1⟩

/-! Characterization of the thermal latches across one tick. -/

theorem release_latches_eq (cfg : Supervision) (st : SupState) :
    (release_latches cfg st).temp_shutdown =
      ⟨if st.temp_shutdown.cpu ≠ 0 ∧
           cfg.max_cpu_temp - cfg.cpu_temp_hysteresis > st.last_temp.cpu
        then 0 else st.temp_shutdown.cpu,
       if st.temp_shutdown.temp_1 ≠ 0 ∧
           cfg.max_led_temp - cfg.led_temp_hysteresis > st.last_temp.temp_1
        then 0 else st.temp_shutdown.temp_1,
       if st.temp_shutdown.temp_2 ≠ 0 ∧
           cfg.max_led_temp - cfg.led_temp_hysteresis > st.last_temp.temp_2
        then 0 else st.temp_shutdown.temp_2⟩ := by
  simp only [release_latches]
  split_ifs <;> simp_all

theorem main_loop_tick_temp_shutdown (cfg : Supervision) (env : TickEnv)
    (st : SupState) :
    (main_loop_tick cfg env st).1.temp_shutdown =
      (if (refresh_temps env st).temp_shutdown.cpu ≠ 0 ∨
          (refresh_temps env st).temp_shutdown.temp_1 ≠ 0 ∨
          (refresh_temps env st).temp_shutdown.temp_2 ≠ 0 then
        (release_latches cfg (refresh_temps env st)).temp_shutdown
      else if (refresh_temps env st).last_temp.cpu > cfg.max_cpu_temp then
        { (refresh_temps env st).temp_shutdown with
            cpu := (refresh_temps env st).last_temp.cpu }
      else if (refresh_temps env st).last_temp.temp_1 > cfg.max_led_temp then
        { (refresh_temps env st).temp_shutdown with
            temp_1 := (refresh_temps env st).last_temp.temp_1 }
      else if (refresh_temps env st).last_temp.temp_2 > cfg.max_led_temp then
        { (refresh_temps env st).temp_shutdown with
            temp_2 := (refresh_temps env st).last_temp.temp_2 }
      else (refresh_temps env st).temp_shutdown) := by
  simp only [main_loop_tick]
  split_ifs <;> rfl

theorem tick_ts_cpu (cfg : Supervision) (env : TickEnv) (st : SupState) :
    (main_loop_tick cfg env st).1.temp_shutdown.cpu =
      (if st.temp_shutdown.cpu ≠ 0 ∨ st.temp_shutdown.temp_1 ≠ 0 ∨
          st.temp_shutdown.temp_2 ≠ 0 then
        (if st.temp_shutdown.cpu ≠ 0 ∧
            cfg.max_cpu_temp - cfg.cpu_temp_hysteresis >
              (refresh_temps env st).last_temp.cpu
         then 0 else st.temp_shutdown.cpu)
      else if (refresh_temps env st).last_temp.cpu > cfg.max_cpu_temp then
        (refresh_temps env st).last_temp.cpu
      else st.temp_shutdown.cpu) := by
  rw [main_loop_tick_temp_shutdown, release_latches_eq]
  rw [refresh_temps_temp_shutdown]
  split_ifs <;> rfl

theorem tick_ts_temp_1 (cfg : Supervision) (env : TickEnv) (st : SupState) :
    (main_loop_tick cfg env st).1.temp_shutdown.temp_1 =
      (if st.temp_shutdown.cpu ≠ 0 ∨ st.temp_shutdown.temp_1 ≠ 0 ∨
          st.temp_shutdown.temp_2 ≠ 0 then
        (if st.temp_shutdown.temp_1 ≠ 0 ∧
            cfg.max_led_temp - cfg.led_temp_hysteresis >
              (refresh_temps env st).last_temp.temp_1
         then 0 else st.temp_shutdown.temp_1)
      else if (refresh_temps env st).last_temp.cpu > cfg.max_cpu_temp then
        st.temp_shutdown.temp_1
      else if (refresh_temps env st).last_temp.temp_1 > cfg.max_led_temp then
        (refresh_temps env st).last_temp.temp_1
      else st.temp_shutdown.temp_1) := by
  rw [main_loop_tick_temp_shutdown, release_latches_eq]
  rw [refresh_temps_temp_shutdown]
  split_ifs <;> rfl

theorem tick_ts_temp_2 (cfg : Supervision) (env : TickEnv) (st : SupState) :
    (main_loop_tick cfg env st).1.temp_shutdown.temp_2 =
      (if st.temp_shutdown.cpu ≠ 0 ∨ st.temp_shutdown.temp_1 ≠ 0 ∨
          st.temp_shutdown.temp_2 ≠ 0 then
        (if st.temp_shutdown.temp_2 ≠ 0 ∧
            cfg.max_led_temp - cfg.led_temp_hysteresis >
              (refresh_temps env st).last_temp.temp_2
         then 0 else st.temp_shutdown.temp_2)
      else if (refresh_temps env st).last_temp.cpu > cfg.max_cpu_temp then
        st.temp_shutdown.temp_2
      else if (refresh_temps env st).last_temp.temp_1 > cfg.max_led_temp then
        st.temp_shutdown.temp_2
      else if (refresh_temps env st).last_temp.temp_2 > cfg.max_led_temp then
        (refresh_temps env st).last_temp.temp_2
      else st.temp_shutdown.temp_2) := by
  rw [main_loop_tick_temp_shutdown, release_latches_eq]
  rw [refresh_temps_temp_shutdown]
  split_ifs <;> rfl

/-! Claim C1: per-channel thermal hysteresis. -/

/-- C1 counterexample: channel temp_1 is NORMAL and its observed reading
100 exceeds the ceiling 60, yet after the tick the temp_1 latch is still
NORMAL, because the cpu latch is TRIPPED and on such ticks the loop runs
only the release checks and never the trip checks. -/
theorem thermal_hysteresis_counterexample :
    stC1.temp_shutdown.temp_1 = 0 ∧
    (refresh_temps envC1 stC1).last_temp.temp_1 = 100 ∧
    ((100 : Int) > cfgA.max_led_temp) ∧
    (main_loop_tick cfgA envC1 stC1).1.temp_shutdown.temp_1 = 0 := by
  decide

/-- C1 (amended): per-channel thermal hysteresis over one tick, with `r`
the readings observed by the tick (after the override-aware refresh).
TRIPPED→NORMAL when `r < ceiling - margin` and band non-transition hold
for every channel exactly as claimed; NORMAL→TRIPPED when `r > ceiling`
holds only on ticks on which no latch is tripped at the start and no
earlier channel (in the order cpu, temp_1, temp_2) is over its own
ceiling — otherwise the latch stays NORMAL even with `r > ceiling`. -/
theorem thermal_hysteresis_per_channel (cfg : Supervision) (env : TickEnv)
    (st : SupState) :
    (st.temp_shutdown.cpu ≠ 0 →
      (refresh_temps env st).last_temp.cpu <
        cfg.max_cpu_temp - cfg.cpu_temp_hysteresis →
      (main_loop_tick cfg env st).1.temp_shutdown.cpu = 0) ∧
    (st.temp_shutdown.temp_1 ≠ 0 →
      (refresh_temps env st).last_temp.temp_1 <
        cfg.max_led_temp - cfg.led_temp_hysteresis →
      (main_loop_tick cfg env st).1.temp_shutdown.temp_1 = 0) ∧
    (st.temp_shutdown.temp_2 ≠ 0 →
      (refresh_temps env st).last_temp.temp_2 <
        cfg.max_led_temp - cfg.led_temp_hysteresis →
      (main_loop_tick cfg env st).1.temp_shutdown.temp_2 = 0) ∧
    (cfg.max_cpu_temp - cfg.cpu_temp_hysteresis ≤
        (refresh_temps env st).last_temp.cpu →
      (refresh_temps env st).last_temp.cpu ≤ cfg.max_cpu_temp →
      (main_loop_tick cfg env st).1.temp_shutdown.cpu = st.temp_shutdown.cpu) ∧
    (cfg.max_led_temp - cfg.led_temp_hysteresis ≤
        (refresh_temps env st).last_temp.temp_1 →
      (refresh_temps env st).last_temp.temp_1 ≤ cfg.max_led_temp →
      (main_loop_tick cfg env st).1.temp_shutdown.temp_1 = st.temp_shutdown.temp_1) ∧
    (cfg.max_led_temp - cfg.led_temp_hysteresis ≤
        (refresh_temps env st).last_temp.temp_2 →
      (refresh_temps env st).last_temp.temp_2 ≤ cfg.max_led_temp →
      (main_loop_tick cfg env st).1.temp_shutdown.temp_2 = st.temp_shutdown.temp_2) ∧
    (st.temp_shutdown = ⟨0, 0, 0⟩ → 0 ≤ cfg.max_cpu_temp →
      (refresh_temps env st).last_temp.cpu > cfg.max_cpu_temp →
      (main_loop_tick cfg env st).1.temp_shutdown.cpu ≠ 0) ∧
    (st.temp_shutdown = ⟨0, 0, 0⟩ → 0 ≤ cfg.max_led_temp →
      (refresh_temps env st).last_temp.cpu ≤ cfg.max_cpu_temp →
      (refresh_temps env st).last_temp.temp_1 > cfg.max_led_temp →
      (main_loop_tick cfg env st).1.temp_shutdown.temp_1 ≠ 0) ∧
    (st.temp_shutdown = ⟨0, 0, 0⟩ → 0 ≤ cfg.max_led_temp →
      (refresh_temps env st).last_temp.cpu ≤ cfg.max_cpu_temp →
      (refresh_temps env st).last_temp.temp_1 ≤ cfg.max_led_temp →
      (refresh_temps env st).last_temp.temp_2 > cfg.max_led_temp →
      (main_loop_tick cfg env st).1.temp_shutdown.temp_2 ≠ 0) := by
  refine ⟨?_, ?_, ?_, ?_, ?_, ?_, ?_, ?_, ?_⟩
  · intro h hcool
    rw [tick_ts_cpu]
    split_ifs <;> omega
  · intro h hcool
    rw [tick_ts_temp_1]
    split_ifs <;> omega
  · intro h hcool
    rw [tick_ts_temp_2]
    split_ifs <;> omega
  · intro h1 h2
    rw [tick_ts_cpu]
    split_ifs <;> omega
  · intro h1 h2
    rw [tick_ts_temp_1]
    split_ifs <;> omega
  · intro h1 h2
    rw [tick_ts_temp_2]
    split_ifs <;> omega
  · intro h h0 hhot
    rw [tick_ts_cpu, h]
    simp only [Temps.mk.injEq] at *
    split_ifs <;> simp_all <;> omega
  · intro h h0 hc hhot
    rw [tick_ts_temp_1, h]
    split_ifs <;> simp_all <;> omega
  · intro h h0 hc h1 hhot
    rw [tick_ts_temp_2, h]
    split_ifs <;> simp_all <;> omega

/-- C1 witness: a TRIPPED cpu latch with a cooled-down reading releases,
and a fully NORMAL state with a hot cpu reading trips, instantiating
`thermal_hysteresis_per_channel`. -/
theorem thermal_hysteresis_per_channel_witness :
    (main_loop_tick cfgA envC1 stC1b).1.temp_shutdown.cpu = 0 ∧
    (main_loop_tick cfgA envC1 stC1c).1.temp_shutdown.cpu ≠ 0 := by
  exact ⟨(thermal_hysteresis_per_channel cfgA envC1 stC1b).1
           (by decide) (by decide),
         (thermal_hysteresis_per_channel cfgA envC1 stC1c).2.2.2.2.2.2.1
           (by decide) (by decide) (by decide)⟩

/-! Trace-count helper lemmas. -/

theorem shutdown_runs_append (a b : List Act) :
    shutdown_runs (a ++ b) = shutdown_runs a + shutdown_runs b :=
  List.count_append _ _ _

theorem startup_runs_append (a b : List Act) :
    startup_runs (a ++ b) = startup_runs a + startup_runs b :=
  List.count_append _ _ _

theorem shutdown_seq_counts (p : Bool) :
    shutdown_runs (shutdown_led_sequence p).2 = 1 ∧
    startup_runs (shutdown_led_sequence p).2 = 0 := by
  cases p <;> exact ⟨by decide, by decide⟩

theorem phase_select_trace_counts (pins : PinVec) (k : Int) :
    shutdown_runs (handle_phase_select pins k).2 = 0 ∧
    startup_runs (handle_phase_select pins k).2 = 0 := by
  by_cases h : 2 ≤ k ∧ k ≤ 8 <;>
    simp [handle_phase_select, h, shutdown_runs, startup_runs,
          List.count_append, List.count_eq_zero]

theorem phase_select_all_off (pins : PinVec) (k : Int)
    (h : ¬ (2 ≤ k ∧ k ≤ 8)) :
    ∀ j, (handle_phase_select pins k).1 j = false := by
  intro j
  simp [handle_phase_select, dif_neg h]

/-! Claim C2: thermal trip takes precedence over scheduling. -/

/-- C2: on a tick where every latch starts NORMAL, some observed reading
is over its ceiling and the supervisor is not already STOPPED, the
shutdown sequence runs exactly once (counted by its unique
background-mode-0 message), no startup sequence runs, the power state
becomes STOPPED with the relay de-energized, and the phase is forced to 0
with every phase pin de-energized — all regardless of what the lighting
schedule says, since the schedule block is never reached; and on any tick
that starts with at least one latch TRIPPED, the loop emits no side
effects at all and leaves power state, relay, phase and pins unchanged
(only the release conditions are evaluated). -/
theorem thermal_trip_precedence (cfg : Supervision) (env : TickEnv)
    (st : SupState) :
    (st.temp_shutdown = ⟨0, 0, 0⟩ →
      st.current_state ≠ PowerState.STOPPED →
      ((refresh_temps env st).last_temp.cpu > cfg.max_cpu_temp ∨
       (refresh_temps env st).last_temp.temp_1 > cfg.max_led_temp ∨
       (refresh_temps env st).last_temp.temp_2 > cfg.max_led_temp) →
      shutdown_runs (main_loop_tick cfg env st).2 = 1 ∧
      startup_runs (main_loop_tick cfg env st).2 = 0 ∧
      (main_loop_tick cfg env st).1.current_state = PowerState.STOPPED ∧
      (main_loop_tick cfg env st).1.current_moon_phase = 0 ∧
      (∀ j, (main_loop_tick cfg env st).1.phase_pins j = false) ∧
      (main_loop_tick cfg env st).1.power_pin = false) ∧
    ((st.temp_shutdown.cpu ≠ 0 ∨ st.temp_shutdown.temp_1 ≠ 0 ∨
        st.temp_shutdown.temp_2 ≠ 0) →
      (main_loop_tick cfg env st).2 = [] ∧
      (main_loop_tick cfg env st).1.phase_pins = st.phase_pins ∧
      (main_loop_tick cfg env st).1.current_moon_phase = st.current_moon_phase ∧
      (main_loop_tick cfg env st).1.current_state = st.current_state ∧
      (main_loop_tick cfg env st).1.power_pin = st.power_pin) := by
  have hT := refresh_temps_temp_shutdown env st
  have hF := refresh_temps_frame env st
  constructor
  · intro hts hstate hhot
    have hzero : ¬ ((refresh_temps env st).temp_shutdown.cpu ≠ 0 ∨
        (refresh_temps env st).temp_shutdown.temp_1 ≠ 0 ∨
        (refresh_temps env st).temp_shutdown.temp_2 ≠ 0) := by
      rw [hT, hts]
      simp
    have hcount : ∀ p : Bool, ∀ pins : PinVec,
        shutdown_runs ((shutdown_led_sequence p).2 ++
          (handle_phase_select pins 0).2) = 1 ∧
        startup_runs ((shutdown_led_sequence p).2 ++
          (handle_phase_select pins 0).2) = 0 := by
      intro p pins
      rw [shutdown_runs_append, startup_runs_append,
          (shutdown_seq_counts p).1, (shutdown_seq_counts p).2,
          (phase_select_trace_counts pins 0).1,
          (phase_select_trace_counts pins 0).2]
      exact ⟨rfl, rfl⟩
    have hoff := phase_select_all_off (refresh_temps env st).phase_pins 0
      (by decide)
    simp only [main_loop_tick, hzero, if_false, hF.1]
    by_cases hc : (refresh_temps env st).last_temp.cpu > cfg.max_cpu_temp
    · rw [if_pos hc, if_pos hstate]
      exact ⟨(hcount _ _).1, (hcount _ _).2, rfl, rfl, hoff, rfl⟩
    · rw [if_neg hc]
      by_cases h1 : (refresh_temps env st).last_temp.temp_1 > cfg.max_led_temp
      · rw [if_pos h1, if_pos hstate]
        exact ⟨(hcount _ _).1, (hcount _ _).2, rfl, rfl, hoff, rfl⟩
      · rw [if_neg h1]
        by_cases h2 : (refresh_temps env st).last_temp.temp_2 > cfg.max_led_temp
        · rw [if_pos h2, if_pos hstate]
          exact ⟨(hcount _ _).1, (hcount _ _).2, rfl, rfl, hoff, rfl⟩
        · rcases hhot with h | h | h <;> omega
  · intro h
    have hsome : ((refresh_temps env st).temp_shutdown.cpu ≠ 0 ∨
        (refresh_temps env st).temp_shutdown.temp_1 ≠ 0 ∨
        (refresh_temps env st).temp_shutdown.temp_2 ≠ 0) := by
      rw [hT]
      exact h
    simp only [main_loop_tick, hsome, if_true]
    refine ⟨trivial, ?_, ?_, ?_, ?_⟩
    · exact hF.2.2.1
    · exact hF.2.2.2
    · exact hF.1
    · exact hF.2.1

/-- C2 witness: the hot-cpu tick from RUNNING runs the shutdown sequence
exactly once and forces phase 0, and the latched state stC1 produces an
empty trace, instantiating `thermal_trip_precedence`. -/
theorem thermal_trip_precedence_witness :
    shutdown_runs (main_loop_tick cfgA envC1 stC2).2 = 1 ∧
    startup_runs (main_loop_tick cfgA envC1 stC2).2 = 0 ∧
    (main_loop_tick cfgA envC1 stC2).1.current_state = PowerState.STOPPED ∧
    (main_loop_tick cfgA envC1 stC2).1.current_moon_phase = 0 ∧
    (main_loop_tick cfgA envC1 stC2).1.phase_pins 3 = false ∧
    (main_loop_tick cfgA envC1 stC2).1.power_pin = false ∧
    (main_loop_tick cfgA envC1 stC1).2 = [] := by
  have h := (thermal_trip_precedence cfgA envC1 stC2).1 (by decide) (by decide)
    (by decide)
  exact ⟨h.1, h.2.1, h.2.2.1, h.2.2.2.1, h.2.2.2.2.1 3, h.2.2.2.2.2,
         ((thermal_trip_precedence cfgA envC1 stC1).2 (by decide)).1⟩

/-! Refresh-step helper lemmas. -/

theorem refresh_temps_poll (env : TickEnv) (st : SupState)
    (h : st.last_external = none) :
    (refresh_temps env st).last_temp =
      ⟨env.pi_temp, env.temp_sensor_1.getD 0, env.temp_sensor_2.getD 0⟩ := by
  obtain ⟨cs, le, lt, ts, cmp, pp, pins⟩ := st
  simp only at h
  subst h
  simp only [refresh_temps]
  cases env.temp_sensor_1 <;> cases env.temp_sensor_2 <;> rfl

theorem refresh_temps_fresh (env : TickEnv) (st : SupState) (t0 : Nat)
    (h : st.last_external = some t0)
    (hf : override_is_fresh t0 env.now = true) :
    refresh_temps env st = st := by
  obtain ⟨cs, le, lt, ts, cmp, pp, pins⟩ := st
  simp only at h
  subst h
  simp [refresh_temps, hf]

theorem refresh_temps_stale (env : TickEnv) (st : SupState) (t0 : Nat)
    (h : st.last_external = some t0)
    (hf : override_is_fresh t0 env.now = false) :
    refresh_temps env st = { st with last_external := none } := by
  obtain ⟨cs, le, lt, ts, cmp, pp, pins⟩ := st
  simp only at h
  subst h
  simp [refresh_temps, hf]

/-! Claim C5: sensor unavailability and the thermal latches. -/

/-- C5 counterexample: with the temp_1 sensor unavailable, the last-known
reading 65 is not kept — it is overwritten with 0 — and the TRIPPED
temp_1 latch is released on that same tick (0 is below ceiling minus
margin), so absence of data alone fakes a cool-down. -/
theorem sensor_absence_counterexample :
    stC5.temp_shutdown.temp_1 = 65 ∧
    stC5.last_temp.temp_1 = 65 ∧
    envC5.temp_sensor_1 = none ∧
    (refresh_temps envC5 stC5).last_temp.temp_1 = 0 ∧
    (main_loop_tick cfgA envC5 stC5).1.temp_shutdown.temp_1 = 0 := by
  decide

/-- C5 (amended): on a tick with no fresh override, an unavailable sensor
makes the observed reading of its channel 0 (not the previous last-known
value), for either thermocouple channel — temp_1 and temp_2 are the two
channels whose sensors can be absent, the cpu reading having no absence
path in the code; a NORMAL latch of that channel is indeed never tripped
solely by the absence (0 is never above a nonnegative ceiling), but a
TRIPPED latch of that channel IS released by the absence whenever
`ceiling - margin` is positive, so absence of data is treated as a
cool-down rather than as no change. -/
theorem sensor_absence_reads_zero (cfg : Supervision) (env : TickEnv)
    (st : SupState) :
    st.last_external = none →
    ((env.temp_sensor_1 = none →
       ((refresh_temps env st).last_temp.temp_1 = 0 ∧
        (st.temp_shutdown.temp_1 = 0 → 0 ≤ cfg.max_led_temp →
          (main_loop_tick cfg env st).1.temp_shutdown.temp_1 = 0) ∧
        (st.temp_shutdown.temp_1 ≠ 0 →
          0 < cfg.max_led_temp - cfg.led_temp_hysteresis →
          (main_loop_tick cfg env st).1.temp_shutdown.temp_1 = 0))) ∧
     (env.temp_sensor_2 = none →
       ((refresh_temps env st).last_temp.temp_2 = 0 ∧
        (st.temp_shutdown.temp_2 = 0 → 0 ≤ cfg.max_led_temp →
          (main_loop_tick cfg env st).1.temp_shutdown.temp_2 = 0) ∧
        (st.temp_shutdown.temp_2 ≠ 0 →
          0 < cfg.max_led_temp - cfg.led_temp_hysteresis →
          (main_loop_tick cfg env st).1.temp_shutdown.temp_2 = 0)))) := by
  intro hno
  constructor
  · intro habs
    have hr : (refresh_temps env st).last_temp.temp_1 = 0 := by
      rw [refresh_temps_poll env st hno, habs]
      rfl
    refine ⟨hr, ?_, ?_⟩
    · intro hnorm hceil
      rw [tick_ts_temp_1]
      split_ifs <;> omega
    · intro htrip hpos
      rw [tick_ts_temp_1]
      split_ifs <;> omega
  · intro habs
    have hr : (refresh_temps env st).last_temp.temp_2 = 0 := by
      rw [refresh_temps_poll env st hno, habs]
      rfl
    refine ⟨hr, ?_, ?_⟩
    · intro hnorm hceil
      rw [tick_ts_temp_2]
      split_ifs <;> omega
    · intro htrip hpos
      rw [tick_ts_temp_2]
      split_ifs <;> omega

/-- C5 witness: the unavailable temp_1 sensor of envC5 yields reading 0
and releases the tripped temp_1 latch of stC5, and symmetrically the
unavailable temp_2 sensor of envC5b yields reading 0 and releases the
tripped temp_2 latch of stC5b, instantiating
`sensor_absence_reads_zero`. -/
theorem sensor_absence_reads_zero_witness :
    (refresh_temps envC5 stC5).last_temp.temp_1 = 0 ∧
    (main_loop_tick cfgA envC5 stC5).1.temp_shutdown.temp_1 = 0 ∧
    (refresh_temps envC5b stC5b).last_temp.temp_2 = 0 ∧
    (main_loop_tick cfgA envC5b stC5b).1.temp_shutdown.temp_2 = 0 := by
  have h1 := (sensor_absence_reads_zero cfgA envC5 stC5 (by decide)).1
    (by decide)
  have h2 := (sensor_absence_reads_zero cfgA envC5b stC5b (by decide)).2
    (by decide)
  exact ⟨h1.1, h1.2.2 (by decide) (by decide),
         h2.1, h2.2.2 (by decide) (by decide)⟩

/-! Claim C6: override freshness and scope. -/

/-- C6 counterexample: five seconds after a cpu override, channel temp_1
is not polled either — its stored reading stays 7 although its sensor is
available and reads 42 — so the override does not suspend polling for the
overridden channel only; the freshness timestamp is global and suspends
polling for every channel. -/
theorem override_scope_counterexample :
    stC6.last_external = some 100 ∧
    envC6.now = 105 ∧
    envC6.temp_sensor_1 = some 42 ∧
    (main_loop_tick cfgA envC6 stC6).1.last_temp.temp_1 = 7 ∧
    (7 : Int) ≠ 42 := by
  decide

/-- C6 (amended): recording an override (`handle_cpu_temp`) stores the
supplied value and stamps the instant; the TTL is ten seconds and the
timestamp is global, not per-channel: `is_fresh(t0 + ttl - 1s) = true`
and `is_fresh(t0 + ttl + 1s) = false` hold as claimed, and while the
override is fresh NO channel is polled (every stored reading is kept); on
the tick where the override is found stale the timestamp is cleared but
polling still does not happen; polling of all three channels resumes on
any tick that starts with no override recorded. -/
theorem override_freshness_global (env : TickEnv) (st : SupState) (t0 : Nat)
    (v : Int) :
    ((handle_cpu_temp st v t0).last_external = some t0) ∧
    ((handle_cpu_temp st v t0).last_temp.cpu = v) ∧
    (override_is_fresh t0 (t0 + 9) = true) ∧
    (override_is_fresh t0 (t0 + 11) = false) ∧
    (st.last_external = some t0 → override_is_fresh t0 env.now = true →
      (refresh_temps env st).last_temp = st.last_temp ∧
      (refresh_temps env st).last_external = some t0) ∧
    (st.last_external = some t0 → override_is_fresh t0 env.now = false →
      (refresh_temps env st).last_external = none ∧
      (refresh_temps env st).last_temp = st.last_temp) ∧
    (st.last_external = none →
      (refresh_temps env st).last_temp =
        ⟨env.pi_temp, env.temp_sensor_1.getD 0, env.temp_sensor_2.getD 0⟩) := by
  refine ⟨rfl, rfl, ?_, ?_, ?_, ?_, ?_⟩
  · simp only [override_is_fresh, Bool.not_eq_true']
    simp only [decide_eq_false_iff_not]
    omega
  · simp only [override_is_fresh, Bool.not_eq_false']
    simp only [decide_eq_true_eq]
    omega
  · intro h hf
    rw [refresh_temps_fresh env st t0 h hf]
    exact ⟨rfl, h⟩
  · intro h hf
    rw [refresh_temps_stale env st t0 h hf]
    exact ⟨rfl, rfl⟩
  · intro h
    exact refresh_temps_poll env st h

/-- C6 witness: the override of stC6 is fresh at second 105, so the stored
readings are untouched, and with no override the environment readings are
taken, instantiating `override_freshness_global`. -/
theorem override_freshness_global_witness :
    (refresh_temps envC6 stC6).last_temp = stC6.last_temp ∧
    (refresh_temps envC5 stC5).last_temp =
      ⟨envC5.pi_temp, envC5.temp_sensor_1.getD 0, envC5.temp_sensor_2.getD 0⟩ := by
  exact ⟨((override_freshness_global envC6 stC6 100 0).2.2.2.2.1 (by decide)
            (by decide)).1,
         (override_freshness_global envC5 stC5 0 0).2.2.2.2.2.2 (by decide)⟩

/-! Claim C8: the shutdown idempotent guard. -/

/-- C8 counterexample: on a tick taken while already STOPPED with the
relay observed energized, the code runs the FULL shutdown sequence again —
the trace contains the run-index message, the five second settle delay and
the background-mode-off message, not just a relay de-energize. -/
theorem shutdown_guard_counterexample :
    stC8.current_state = PowerState.STOPPED ∧
    stC8.power_pin = true ∧
    Act.oscRunIndex 1 ∈ (main_loop_tick cfgC8 envC8 stC8).2 ∧
    Act.sleepSec 5 ∈ (main_loop_tick cfgC8 envC8 stC8).2 ∧
    Act.oscMode 0 ∈ (main_loop_tick cfgC8 envC8 stC8).2 := by
  decide

/-- C8 (amended): on a schedule-off tick taken while already STOPPED (no
latch tripped, every reading at or below its ceiling, moon schedule off
and phase already 0), an energized relay triggers the full shutdown
sequence again — run-index message, five second settle delay,
background-mode off, relay de-energize — leaving the relay de-energized,
while a de-energized relay triggers nothing at all. -/
theorem shutdown_guard_full_resequence (cfg : Supervision) (env : TickEnv)
    (st : SupState) :
    st.temp_shutdown = ⟨0, 0, 0⟩ →
    (refresh_temps env st).last_temp.cpu ≤ cfg.max_cpu_temp →
    (refresh_temps env st).last_temp.temp_1 ≤ cfg.max_led_temp →
    (refresh_temps env st).last_temp.temp_2 ≤ cfg.max_led_temp →
    env.disable_sun = false →
    lights_out cfg.leds_on env.sunrise_data env.sunset_data
      env.now_minutes cfg.leds_off = true →
    st.current_state = PowerState.STOPPED →
    lights_out cfg.moons_on env.sunrise_data env.sunset_data
      env.now_minutes none = true →
    st.current_moon_phase = 0 →
    ((st.power_pin = true →
        (main_loop_tick cfg env st).2 =
          [Act.oscRunIndex 1, Act.sleepSec 5, Act.oscMode 0, Act.powerOff] ∧
        (main_loop_tick cfg env st).1.power_pin = false) ∧
     (st.power_pin = false →
        (main_loop_tick cfg env st).2 = [] ∧
        (main_loop_tick cfg env st).1.power_pin = false)) := by
  intro hts hcpu h1 h2 hds hmain hstop hmoon hphase
  have hF := refresh_temps_frame env st
  have hT := refresh_temps_temp_shutdown env st
  have c1 : ¬ ((refresh_temps env st).last_temp.cpu > cfg.max_cpu_temp) := by
    omega
  have c2 : ¬ ((refresh_temps env st).last_temp.temp_1 > cfg.max_led_temp) := by
    omega
  have c3 : ¬ ((refresh_temps env st).last_temp.temp_2 > cfg.max_led_temp) := by
    omega
  constructor
  · intro hp
    simp only [main_loop_tick, hT, hts, hds, hmain, hmoon, c1, c2, c3,
               hF.1, hF.2.1, hF.2.2.1, hF.2.2.2, hphase, hstop, hp]
    simp [shutdown_led_sequence]
  · intro hp
    simp only [main_loop_tick, hT, hts, hds, hmain, hmoon, c1, c2, c3,
               hF.1, hF.2.1, hF.2.2.1, hF.2.2.2, hphase, hstop, hp]
    simp

/-- C8 witness: the energized-relay case of stC8 emits exactly the full
shutdown sequence, instantiating `shutdown_guard_full_resequence`. -/
theorem shutdown_guard_full_resequence_witness :
    (main_loop_tick cfgC8 envC8 stC8).2 =
      [Act.oscRunIndex 1, Act.sleepSec 5, Act.oscMode 0, Act.powerOff] ∧
    (main_loop_tick cfgC8 envC8 stC8).1.power_pin = false := by
  exact (shutdown_guard_full_resequence cfgC8 envC8 stC8 (by decide)
    (by decide) (by decide) (by decide) (by decide) (by decide) (by decide)
    (by decide) (by decide)).1 (by decide)

end UnderOneSky
